import Mathlib

/-!
# Verification of the message ingestion / monitoring / notification pipeline

A shallow embedding of the core of the passive Telegram monitor
(`src/bot/logger.py`, `src/bot/observer.py`, `src/bot/webhook.py`,
`src/main.py`) together with theorems settling the frozen claims about it.

Modelling conventions:
* SQLite tables become Lean lists of row structures; one row per table row,
  in insertion order.  The schema's primary keys drive the
  insert-or-ignore / upsert translations exactly as the SQL statements do.
  (The auxiliary UNIQUE constraint on `chats.username` / `users.username`
  is not modelled; no claim depends on it.)
* Timestamps are integers (seconds since the Unix epoch, UTC); a calendar
  date is mapped to its epoch-day number by the standard civil-calendar
  conversion, so a day's half-open interval is
  `[day * 86400, (day + 1) * 86400)`.
* `datetime.strptime(s, "%Y-%m-%d")` is modelled by an explicit parser with
  CPython's per-field regexes (4-digit year, 1-2 digit month 1..12,
  1-2 digit day 1..31) plus day-of-month validity.
* Async I/O, the transport client and the AI backend are external
  collaborators: they appear as oracle functions in an environment record
  (`send`, `getEntity`), and fallible transport sends return an explicit
  outcome value.
* Python truthiness of filter arguments (`if chat_filter:` skips `0`,
  `""` and `None`) is modelled explicitly.
-/

/-! ## Generic helpers -/

/-- Strip leading and trailing whitespace from a character list
(Python `str.strip()`; structural, unlike `String.trim`, so that concrete
witnesses evaluate in the kernel). -/
def trimL (l : List Char) : List Char :=
  ((l.dropWhile Char.isWhitespace).reverse.dropWhile Char.isWhitespace).reverse

/-- ASCII lowercasing (Python `str.lower()` on the ASCII command and
filter strings this program compares). -/
def strLower (s : String) : String :=
  String.mk (s.data.map Char.toLower)

/-- Python `str.strip()` followed by `str.split(maxsplit=1)`:
first whitespace-delimited token and the remainder. -/
def splitOnce (s : String) : String × String :=
  let cs := trimL s.data
  let tok := cs.takeWhile (fun c => !c.isWhitespace)
  let rest := ((cs.dropWhile (fun c => !c.isWhitespace)).dropWhile (fun c => c.isWhitespace))
  (String.mk tok, String.mk rest)

/-- Numeric value of a digit-character list. -/
def natOf (l : List Char) : Nat :=
  l.foldl (fun a c => a * 10 + (c.toNat - 48)) 0

/-- All characters are ASCII digits and the list is nonempty. -/
def isDigitStr (l : List Char) : Bool :=
  !l.isEmpty && l.all (·.isDigit)

/-- Split a character list on a separator character
(`"a-b".split("-")`; the empty list yields one empty part). -/
def splitChar (c : Char) : List Char → List (List Char)
  | [] => [[]]
  | x :: xs =>
    if x == c then [] :: splitChar c xs
    else
      match splitChar c xs with
      | [] => [[x]]
      | h :: t => (x :: h) :: t

/-- Python `int(s)`: optional surrounding whitespace, optional sign, digits. -/
def parseInt (s : String) : Option Int :=
  let t := trimL s.data
  if t.isEmpty then none
  else
    let neg := t.head? == some ('-')
    let digits := if t.head? == some ('-') || t.head? == some ('+')
                  then t.tail else t
    if isDigitStr digits then
      some (if neg then -(natOf digits : Int) else (natOf digits : Int))
    else none

/-- Gregorian leap year. -/
def isLeap (y : Nat) : Bool :=
  y % 4 == 0 && (y % 100 != 0 || y % 400 == 0)

/-- Days in a Gregorian month. -/
def daysInMonth (y m : Nat) : Nat :=
  if m = 2 then (if isLeap y then 29 else 28)
  else if [4, 6, 9, 11].contains m then 30
  else 31

/-- `datetime.strptime(s, "%Y-%m-%d").date()`: CPython accepts a 4-digit
year, 1-2 digit month in 1..12 and 1-2 digit day in 1..31 separated by
hyphens, with nothing left over, and then validates the day against the
month; on failure it raises `ValueError` (here: `none`). -/
def parseYMD (s : String) : Option (Nat × Nat × Nat) :=
  match splitChar ('-') s.data with
  | [ys, ms, ds] =>
    if isDigitStr ys && ys.length = 4 && natOf ys ≥ 1
       && isDigitStr ms && ms.length ≤ 2 && 1 ≤ natOf ms && natOf ms ≤ 12
       && isDigitStr ds && ds.length ≤ 2 && 1 ≤ natOf ds
       && natOf ds ≤ daysInMonth (natOf ys) (natOf ms)
    then some (natOf ys, natOf ms, natOf ds)
    else none
  | _ => none

/-- Epoch-day number of a civil date (days since 1970-01-01, may be
negative for early years).  Standard era-based conversion. -/
def daysFromCivil (y m d : Nat) : Int :=
  let yy := if m ≤ 2 then y - 1 else y
  let era := yy / 400
  let yoe := yy % 400
  let mp := if m > 2 then m - 3 else m + 9
  let doy := (153 * mp + 2) / 5 + d - 1
  let doe := yoe * 365 + yoe / 4 - yoe / 100 + doy
  ((era * 146097 + doe : Nat) : Int) - 719468

/-- One step of a stable insertion sort: insert `x` after every element
`y` with `le x y` (used with `le a b = key a ≤ key b`, this yields a
descending stable sort, matching `ORDER BY key DESC`). -/
def insDesc (le : α → α → Bool) (x : α) : List α → List α
  | [] => [x]
  | y :: ys => if le x y then y :: insDesc le x ys else x :: y :: ys

/-- Stable descending sort by `le`. -/
def sortDesc (le : α → α → Bool) : List α → List α
  | [] => []
  | x :: xs => insDesc le x (sortDesc le xs)

theorem mem_insDesc (le : α → α → Bool) (x a : α) (l : List α) :
    a ∈ insDesc le x l ↔ a = x ∨ a ∈ l := by
  induction l with
  | nil => simp [insDesc]
  | cons y ys ih =>
    simp only [insDesc]
    by_cases h : le x y = true
    · simp [h, ih]
      tauto
    · simp [h]

theorem mem_sortDesc (le : α → α → Bool) (a : α) (l : List α) :
    a ∈ sortDesc le l ↔ a ∈ l := by
  induction l with
  | nil => simp [sortDesc]
  | cons x xs ih => simp [sortDesc, mem_insDesc, ih]

theorem mem_of_mem_take {a : α} {n : Nat} {l : List α} (h : a ∈ l.take n) : a ∈ l := by
  induction l generalizing n with
  | nil => simp [List.take] at h
  | cons x xs ih =>
    cases n with
    | zero => simp [List.take] at h
    | succ n =>
      simp only [List.take, List.mem_cons] at h
      rcases h with h | h
      · simp [h]
      · exact List.mem_cons_of_mem _ (ih h)

/-- Python `dict.__setitem__` on an association list: overwrite in place
if the key exists, otherwise append. -/
def dictSet (l : List (String × Nat)) (k : String) (v : Nat) : List (String × Nat) :=
  if l.any (·.1 == k) then
    l.map (fun p => if p.1 == k then (k, v) else p)
  else l ++ [(k, v)]

/-- Python truthiness of `Optional[str]`: `None` and `""` are falsy. -/
def truthyStr : Option String → Option String
  | some s => if s = "" then none else some s
  | none => none

/-! ## Data model (tables of `logger.py`) -/

/-- Row of the `chats` table. -/
structure ChatRow where
  chat_id : Int
  type : String
  title : Option String
  username : Option String
deriving DecidableEq

/-- Row of the `users` table. -/
structure UserRow where
  user_id : Int
  username : Option String
  first_name : Option String
  last_name : Option String
  is_bot : Bool
deriving DecidableEq

/-- Row of the `messages` table; primary key `(chat_id, message_id)`. -/
structure MessageRow where
  message_id : Int
  chat_id : Int
  sender_id : Option Int
  timestamp : Int
  text : Option String
  entities : Option String
  media_type : Option String
  media_info : Option String
  forwarded_to_user : Bool
deriving DecidableEq

/-- Row of the `monitored_chats` table. -/
structure MonitoredChatRow where
  chat_id : Int
  title : Option String
  username : Option String
deriving DecidableEq

/-- Row of the `notification_targets` table. -/
structure NotificationTargetRow where
  target_user_id : Int
  username : Option String
  first_name : Option String
  is_owner : Bool
deriving DecidableEq

/-- The whole SQLite database `data/observations.db`. -/
structure DB where
  chats : List ChatRow
  users : List UserRow
  messages : List MessageRow
  monitored : List MonitoredChatRow
  targets : List NotificationTargetRow
deriving DecidableEq

/-- `OWNER_USER_ID` from `logger.py`. -/
def OWNER_USER_ID : Int := 1137119534

/-! ## Persistence-store operations (`logger.py`) -/

/-- The incoming message event data handed to `log_message`
(and produced by the transport for `handle_new_message`). -/
structure MsgEvent where
  chatId : Int
  chatType : String
  chatTitle : Option String
  chatUsername : Option String
  senderId : Option Int
  senderUsername : Option String
  senderFirstName : Option String
  senderLastName : Option String
  senderIsBot : Bool
  messageId : Int
  timestamp : Int
  text : Option String
  entities : Option String
  mediaType : Option String
  mediaInfo : Option String
deriving DecidableEq

/-- The `messages` row `log_message` inserts for an event
(`forwarded_to_user` defaults to 0). -/
def msgRowOf (ev : MsgEvent) : MessageRow :=
  ⟨ev.messageId, ev.chatId, ev.senderId, ev.timestamp, ev.text,
   ev.entities, ev.mediaType, ev.mediaInfo, false⟩

/-- `log_message`: insert-if-absent on `chats(chat_id)`, insert-if-absent
on `users(user_id)` when a sender exists, then
`INSERT ... ON CONFLICT(chat_id, message_id) DO NOTHING` on `messages`. -/
def log_message (ev : MsgEvent) (db : DB) : DB :=
  let chats' :=
    if db.chats.any (·.chat_id == ev.chatId) then db.chats
    else db.chats ++ [⟨ev.chatId, ev.chatType, ev.chatTitle, ev.chatUsername⟩]
  let users' :=
    match ev.senderId with
    | none => db.users
    | some sid =>
      if db.users.any (·.user_id == sid) then db.users
      else db.users ++ [⟨sid, ev.senderUsername, ev.senderFirstName, ev.senderLastName, ev.senderIsBot⟩]
  let messages' :=
    if db.messages.any (fun m => m.chat_id == ev.chatId && m.message_id == ev.messageId) then
      db.messages
    else db.messages ++ [msgRowOf ev]
  ⟨chats', users', messages', db.monitored, db.targets⟩

/-- `mark_message_forwarded`: `UPDATE messages SET forwarded_to_user = 1
WHERE chat_id = ? AND message_id = ? AND forwarded_to_user = 0`. -/
def mark_message_forwarded (chat_id message_id : Int) (db : DB) : DB :=
  { db with messages := db.messages.map (fun r =>
      if r.chat_id == chat_id && r.message_id == message_id && !r.forwarded_to_user then
        { r with forwarded_to_user := true }
      else r) }

/-- Number of rows of `messages` with the given composite key. -/
def countMsgKey (db : DB) (chat_id message_id : Int) : Nat :=
  (db.messages.filter (fun r => r.chat_id == chat_id && r.message_id == message_id)).length

/-- Whether a row with the composite key is present. -/
def msgKeyPresent (db : DB) (chat_id message_id : Int) : Bool :=
  db.messages.any (fun r => r.chat_id == chat_id && r.message_id == message_id)

/-- Owner seeding performed by the database initialisation:
`INSERT INTO notification_targets (target_user_id, is_owner, first_name)
VALUES (?, 1, 'Owner') ON CONFLICT(target_user_id) DO UPDATE SET
is_owner=excluded.is_owner` (models lines 86-91 of `logger.py`). -/
def seed_owner_target (db : DB) : DB :=
  if db.targets.any (·.target_user_id == OWNER_USER_ID) then
    { db with targets := db.targets.map (fun r =>
        if r.target_user_id == OWNER_USER_ID then { r with is_owner := true } else r) }
  else
    { db with targets := db.targets ++ [⟨OWNER_USER_ID, none, some "Owner", true⟩] }

/-- `add_notification_target`: refuses the owner id, otherwise upserts the
row, the conflict branch updating only `username` and `first_name`. -/
def add_notification_target (user_id : Int) (username first_name : Option String)
    (db : DB) : Bool × DB :=
  if user_id == OWNER_USER_ID then (false, db)
  else if db.targets.any (·.target_user_id == user_id) then
    (true, { db with targets := db.targets.map (fun r =>
        if r.target_user_id == user_id then
          { r with username := username, first_name := first_name }
        else r) })
  else
    (true, { db with targets := db.targets ++ [⟨user_id, username, first_name, false⟩] })

/-- `remove_notification_target`: refuses the owner id, otherwise
`DELETE FROM notification_targets WHERE target_user_id = ? AND is_owner = 0`,
returning whether a row was deleted. -/
def remove_notification_target (user_id : Int) (db : DB) : Bool × DB :=
  if user_id == OWNER_USER_ID then (false, db)
  else
    let remaining := db.targets.filter (fun r => !(r.target_user_id == user_id && !r.is_owner))
    (remaining.length < db.targets.length, { db with targets := remaining })

/-- `get_all_notification_target_ids`: all target ids, with the owner
forced in, duplicates removed (`list(set(ids))`; the model keeps first
occurrences since the claims only use membership). -/
def get_all_notification_target_ids (db : DB) : List Int :=
  let ids := db.targets.map (·.target_user_id)
  let ids := if ids.contains OWNER_USER_ID then ids else ids ++ [OWNER_USER_ID]
  ids.eraseDups

/-- The owner id is present as a target row flagged `is_owner`. -/
def owner_member (db : DB) : Bool :=
  db.targets.any (fun r => r.target_user_id == OWNER_USER_ID && r.is_owner)

/-- `add_monitored_chat`: upsert with overwrite of `title`/`username`. -/
def add_monitored_chat (chat_id : Int) (title username : Option String) (db : DB) : DB :=
  if db.monitored.any (·.chat_id == chat_id) then
    { db with monitored := db.monitored.map (fun r =>
        if r.chat_id == chat_id then { r with title := title, username := username } else r) }
  else
    { db with monitored := db.monitored ++ [⟨chat_id, title, username⟩] }

/-- `remove_monitored_chat`: delete by id, returning whether a row went away. -/
def remove_monitored_chat (chat_id : Int) (db : DB) : Bool × DB :=
  let remaining := db.monitored.filter (fun r => !(r.chat_id == chat_id))
  (remaining.length < db.monitored.length, { db with monitored := remaining })

/-- `list_monitored_chats` (the model keeps insertion order; the query
orders by `added_timestamp DESC`, which no claim depends on). -/
def list_monitored_chats (db : DB) : List MonitoredChatRow :=
  db.monitored

/-- `is_chat_monitored`. -/
def is_chat_monitored (db : DB) (chat_id : Int) : Bool :=
  db.monitored.any (·.chat_id == chat_id)

/-- `is_any_chat_monitored`. -/
def is_any_chat_monitored (db : DB) : Bool :=
  !db.monitored.isEmpty

/-- `clear_monitored_chats`: empties the table, returning the count. -/
def clear_monitored_chats (db : DB) : Nat × DB :=
  (db.monitored.length, { db with monitored := [] })

/-- `list_notification_targets` (insertion order, as for
`list_monitored_chats`). -/
def list_notification_targets (db : DB) : List NotificationTargetRow :=
  db.targets

/-! ## Unforwarded-message summary (`get_unforwarded_summary`) -/

/-- Count of unforwarded messages of one chat
(`COUNT(m.message_id) ... WHERE m.forwarded_to_user = 0 GROUP BY m.chat_id`). -/
def unforwardedCount (db : DB) (chat_id : Int) : Nat :=
  (db.messages.filter (fun m => m.chat_id == chat_id && !m.forwarded_to_user)).length

/-- Display string of a chat: Python `title or username or f"ID:{chat_id}"`
(empty strings are falsy). -/
def chatDisplay (c : ChatRow) : String :=
  match truthyStr c.title with
  | some t => t
  | none =>
    match truthyStr c.username with
    | some u => u
    | none => "ID:" ++ toString c.chat_id

/-- The `GROUP BY m.chat_id` groups of the unforwarded-summary query:
chats (joined rows, so the chat must exist in `chats`) that have at least
one unforwarded message, with their counts, ordered by count descending
(`ORDER BY unforwarded_count DESC`; group-scan order for ties). -/
def unforwardedGroups (db : DB) : List (ChatRow × Nat) :=
  let ids := ((db.messages.filter (fun m => !m.forwarded_to_user)).map (·.chat_id)).eraseDups
  sortDesc (fun a b => a.2 ≤ b.2)
    (ids.filterMap (fun cid =>
      (db.chats.find? (·.chat_id == cid)).map (fun c => (c, unforwardedCount db cid))))

/-- `get_unforwarded_summary`: folds the groups into a Python dict keyed
by the chat display string (`summary[chat_display] = count`), so a later
group with the same display string overwrites an earlier one. -/
def get_unforwarded_summary (db : DB) : List (String × Nat) :=
  (unforwardedGroups db).foldl (fun acc g => dictSet acc (chatDisplay g.1) g.2) []

/-! ## Filtered query (`query_messages`) -/

/-- A chat or sender filter value: Python passes either an `int` id or a
name string. -/
inductive Ref where
  | byId (i : Int)
  | byName (s : String)
deriving DecidableEq

/-- Python truthiness of a filter value (`0` and `""` are falsy). -/
def refTruthy : Ref → Bool
  | .byId i => i != 0
  | .byName s => s != ""

/-- Chat-filter resolution.  `none` models the early `return []` for an
unresolvable name; `some none` means no clause; `some (some cid)` is the
clause `m.chat_id = cid`.  A name resolves against `username` or `title`;
a resolved id of `0` is falsy in `if chat_id:` and adds no clause. -/
def chatClause (db : DB) (chat_filter : Option Ref) : Option (Option Int) :=
  match chat_filter with
  | none => some none
  | some r =>
    if !refTruthy r then some none
    else
      match r with
      | .byId i => some (some i)
      | .byName s =>
        match db.chats.find? (fun c => c.username == some s || c.title == some s) with
        | none => none
        | some c => if c.chat_id != 0 then some (some c.chat_id) else some none

/-- Sender-filter resolution: a name resolves against `users.username`
only; `if sender_id:` falls to `return []` when the filter does not
resolve (including a resolved id of `0`). -/
def senderClause (db : DB) (sender_filter : Option Ref) : Option (Option Int) :=
  match sender_filter with
  | none => some none
  | some r =>
    if !refTruthy r then some none
    else
      match r with
      | .byId i => some (some i)
      | .byName s =>
        match db.users.find? (fun u => u.username == some s) with
        | none => none
        | some u => if u.user_id != 0 then some (some u.user_id) else none

/-- The half-open UTC interval the date filter expands to: `today`,
`yesterday` (relative to the current UTC day `nowDay`) or an explicit
parseable date; `none` when the string parses as none of these
(the code then adds no date clause at all). -/
def dateInterval (nowDay : Int) (s : String) : Option (Int × Int) :=
  if strLower s = "today" then
    let start := nowDay * 86400
    some (start, start + 86400)
  else if strLower s = "yesterday" then
    let start := (nowDay - 1) * 86400
    some (start, start + 86400)
  else
    match parseYMD s with
    | some ymd =>
      let start := daysFromCivil ymd.1 ymd.2.1 ymd.2.2 * 86400
      some (start, start + 86400)
    | none => none

/-- The date clause of `query_messages` (`if date_filter:` skips `""`). -/
def dateClause (nowDay : Int) (date_filter : Option String) : Option (Int × Int) :=
  match date_filter with
  | none => none
  | some s => if s = "" then none else dateInterval nowDay s

/-- Boolean contiguous-sublist containment. -/
def containsSub [BEq α] (pat : List α) : List α → Bool
  | [] => pat.isEmpty
  | a :: as => pat.isPrefixOf (a :: as) || containsSub pat as

/-- SQLite `x LIKE '%pat%'` on a nullable text column: ASCII
case-insensitive substring containment, `NULL` never matches. -/
def likeContains (t : Option String) (pat : String) : Bool :=
  match t with
  | none => false
  | some s => containsSub (pat.data.map Char.toLower) (s.data.map Char.toLower)

/-- The content clause: `links` (text contains a URL scheme or
`json_valid(entities)`; stored entity strings come from `json.dumps`, so
validity is their presence), `photos`/`images`, or `text:<keyword>`.
Unrecognised content filters add no clause. -/
def contentPred (content_filter : Option String) : Option (MessageRow → Bool) :=
  match content_filter with
  | none => none
  | some s =>
    if s = "" then none
    else if strLower s = "links" then
      some (fun m => likeContains m.text "http://" || likeContains m.text "https://" || m.entities.isSome)
    else if strLower s = "photos" || strLower s = "images" then
      some (fun m => m.media_type == some "photo")
    else if List.isPrefixOf "text:".data (strLower s).data then
      let kw := String.mk (trimL (s.data.drop 5))
      if kw = "" then none else some (fun m => likeContains m.text kw)
    else none

/-- Conjunction of the four optional WHERE clauses. -/
def matchesClauses (cOpt : Option Int) (dOpt : Option (Int × Int)) (sOpt : Option Int)
    (pOpt : Option (MessageRow → Bool)) (m : MessageRow) : Bool :=
  (match cOpt with | none => true | some cid => m.chat_id == cid)
  && (match dOpt with
      | none => true
      | some i => decide (i.1 ≤ m.timestamp) && decide (m.timestamp < i.2))
  && (match sOpt with | none => true | some sid => m.sender_id == some sid)
  && (match pOpt with | none => true | some p => p m)

/-- `query_messages`: resolves the chat filter (unresolvable name ⇒ `[]`),
the sender filter (unresolvable ⇒ `[]`), expands the date filter, builds
the conjunctive WHERE clause, and returns the newest `limit` matches
(`ORDER BY m.timestamp DESC LIMIT ?`). -/
def query_messages (db : DB) (nowDay : Int) (chat_filter : Option Ref)
    (date_filter : Option String) (content_filter : Option String)
    (sender_filter : Option Ref) (limit : Nat) : List MessageRow :=
  match chatClause db chat_filter with
  | none => []
  | some cOpt =>
    match senderClause db sender_filter with
    | none => []
    | some sOpt =>
      ((sortDesc (fun a b => a.timestamp ≤ b.timestamp)
          (db.messages.filter
            (matchesClauses cOpt (dateClause nowDay date_filter) sOpt
              (contentPred content_filter)))).take limit)

/-! ## Webhook sink (`webhook.py` and the scheduler call in `main.py`) -/

/-- JSON values, for webhook payloads. -/
inductive Json where
  | str (s : String)
  | num (n : Int)
  | bool (b : Bool)
  | null
  | arr (xs : List Json)
  | obj (fields : List (String × Json))

/-- Python `dict.__setitem__` on JSON object fields. -/
def setKey (fields : List (String × Json)) (k : String) (v : Json) : List (String × Json) :=
  if fields.any (·.1 == k) then
    fields.map (fun p => if p.1 == k then (k, v) else p)
  else fields ++ [(k, v)]

/-- Whether a JSON object has a field named `k`. -/
def hasKey (fields : List (String × Json)) (k : String) : Bool :=
  fields.any (·.1 == k)

/-- The configuration fields `send_webhook` reads. -/
structure WConfig where
  botName : String
  webhookUrl : Option String

/-- `send_webhook(config, payload)`: skips (returning `False`, here
`ok none`) when no URL is configured; otherwise executes
`payload["bot_name"] = config.bot_name` and
`payload["timestamp_utc"] = datetime.utcnow().isoformat()` before the
`try` block and POSTs the result.  String-key item assignment on a
non-dict payload raises `TypeError`, which escapes `send_webhook`
(the mutation happens before its exception handlers), so nothing is
posted (`error`).  `ok (some body)` is the POSTed JSON body. -/
def send_webhook (config : WConfig) (nowIso : String) (payload : Json) :
    Except String (Option Json) :=
  match config.webhookUrl with
  | none => .ok none
  | some _ =>
    match payload with
    | .obj fields =>
      .ok (some (.obj (setKey (setKey fields "bot_name" (.str config.botName))
                              "timestamp_utc" (.str nowIso))))
    | _ => .error "TypeError"

/-- The periodic scheduler's webhook call (`main.py` line 94):
`await send_webhook(config, messages_since_last)` — the payload is the
raw *list* of message dicts, not a dict. -/
def scheduler_webhook_post (config : WConfig) (nowIso : String)
    (batch : List Json) : Except String (Option Json) :=
  send_webhook config nowIso (.arr batch)

/-- The payload shape the specification claims for periodic deliveries:
a JSON object with `bot_name`, `timestamp_utc`, `event_type` and
`messages` fields. -/
def claimedWebhookShape (body : Json) : Bool :=
  match body with
  | .obj fields =>
    hasKey fields "bot_name" && hasKey fields "timestamp_utc"
    && hasKey fields "event_type" && hasKey fields "messages"
  | _ => false

/-! ## Observer (`observer.py`) -/

/-- Outcome of one transport send to one target. -/
inductive SendOutcome where
  | ok
  | blocked
  | floodWait (seconds : Nat)
  | sendError
deriving DecidableEq

/-- The data `client.get_entity(ref)` resolves a reference to
(`none` models the `ValueError` path for unresolvable references). -/
structure Entity where
  id : Int
  title : Option String
  username : Option String
  firstName : Option String
deriving DecidableEq

/-- External collaborators of the handler: the bot's own user id, entity
resolution, per-target send outcomes and whether the AI backend is
configured. -/
structure Env where
  botUserId : Option Int
  getEntity : String → Option Entity
  send : Int → SendOutcome
  aiConfigured : Bool

/-- Process state the handler reads and writes: the database plus the
module-global `is_forwarding_active` flag. -/
structure ObsState where
  db : DB
  is_forwarding_active : Bool
deriving DecidableEq

/-- Replies sent back to the commanding owner.  Reply text formatting is
irrelevant to every claim, so replies are tags carrying the
semantically relevant data; the `/summary_today` and `/query` AI
round-trips (external collaborators) are likewise abstracted to tags
since those branches never mutate state. -/
inductive Reply where
  | stopped
  | alreadyStopped
  | started (summary : List (String × Nat))
  | alreadyActive
  | summaryToday
  | usage
  | entityNotFound
  | monitorAdded (chat_id : Int)
  | monitorRemoved
  | monitorNotFound
  | monitorList (chats : List MonitoredChatRow)
  | monitorCleared (n : Nat)
  | queryAck
  | aiNotConfigured
  | queryHandled
  | helpText
  | notifyAddError
  | notifyRemoved
  | notifyRemoveFailed
  | notifyList (targets : List NotificationTargetRow)
deriving DecidableEq

/-- Result of handling one message event. -/
structure HandleResult where
  db : DB
  is_forwarding_active : Bool
  replies : List Reply
  notified : List Int
  marked : Bool
deriving DecidableEq

/-- Notification fan-out (`observer.py` lines 516-576): an empty target
list aborts with a warning; otherwise one send per target, catching
per-target failures (`UserIsBlockedError`, `FloodWaitError` sleeps and
skips, generic errors), and the message is marked forwarded only when
`successful_sends > 0`. -/
def fanOutNotify (send : Int → SendOutcome) (target_ids : List Int) (db : DB)
    (chat_id message_id : Int) : DB × List Int × Bool :=
  if target_ids.isEmpty then (db, [], false)
  else
    let delivered := target_ids.filter (fun t => send t == SendOutcome.ok)
    if delivered.length > 0 then
      (mark_message_forwarded chat_id message_id db, delivered, true)
    else (db, delivered, false)

/-- The owner command dispatch (`observer.py` lines 145-466), one branch
per `elif`.  Returns `none` when the first token is not a recognised
command (the message then falls through to regular processing).
The `/notify_add` branch never reaches `add_notification_target`: after
a successful `get_entity` it evaluates `isinstance(target_user,
(PeerUser, User))` where the name `User` is unbound in `observer.py`,
so the branch always raises `NameError` into its generic handler and
replies with an error. -/
def handleCommand (env : Env) (st : ObsState) (command args : String) :
    Option HandleResult :=
  if command = "/stop_forwarding" then
    if st.is_forwarding_active then
      some ⟨st.db, false, [Reply.stopped], [], false⟩
    else
      some ⟨st.db, st.is_forwarding_active, [Reply.alreadyStopped], [], false⟩
  else if command = "/start_forwarding" then
    if !st.is_forwarding_active then
      some ⟨st.db, true, [Reply.started (get_unforwarded_summary st.db)], [], false⟩
    else
      some ⟨st.db, st.is_forwarding_active, [Reply.alreadyActive], [], false⟩
  else if command = "/summary_today" then
    some ⟨st.db, st.is_forwarding_active, [Reply.summaryToday], [], false⟩
  else if command = "/monitor_add" then
    if args = "" then some ⟨st.db, st.is_forwarding_active, [Reply.usage], [], false⟩
    else
      match env.getEntity args with
      | none => some ⟨st.db, st.is_forwarding_active, [Reply.entityNotFound], [], false⟩
      | some e =>
        some ⟨add_monitored_chat e.id e.title e.username st.db,
              st.is_forwarding_active, [Reply.monitorAdded e.id], [], false⟩
  else if command = "/monitor_remove" then
    if args = "" then some ⟨st.db, st.is_forwarding_active, [Reply.usage], [], false⟩
    else
      match parseInt args with
      | some i =>
        let r := remove_monitored_chat i st.db
        some ⟨r.2, st.is_forwarding_active,
              [if r.1 then Reply.monitorRemoved else Reply.monitorNotFound], [], false⟩
      | none =>
        match env.getEntity args with
        | none => some ⟨st.db, st.is_forwarding_active, [Reply.entityNotFound], [], false⟩
        | some e =>
          let r := remove_monitored_chat e.id st.db
          some ⟨r.2, st.is_forwarding_active,
                [if r.1 then Reply.monitorRemoved else Reply.monitorNotFound], [], false⟩
  else if command = "/monitor_list" then
    some ⟨st.db, st.is_forwarding_active, [Reply.monitorList (list_monitored_chats st.db)], [], false⟩
  else if command = "/monitor_clear" then
    let r := clear_monitored_chats st.db
    some ⟨r.2, st.is_forwarding_active, [Reply.monitorCleared r.1], [], false⟩
  else if command = "/query" then
    if args = "" then some ⟨st.db, st.is_forwarding_active, [Reply.usage], [], false⟩
    else if !env.aiConfigured then
      some ⟨st.db, st.is_forwarding_active, [Reply.queryAck, Reply.aiNotConfigured], [], false⟩
    else
      some ⟨st.db, st.is_forwarding_active, [Reply.queryAck, Reply.queryHandled], [], false⟩
  else if command = "/help" then
    some ⟨st.db, st.is_forwarding_active, [Reply.helpText], [], false⟩
  else if command = "/notify_add" then
    if args = "" then some ⟨st.db, st.is_forwarding_active, [Reply.usage], [], false⟩
    else
      match env.getEntity args with
      | none => some ⟨st.db, st.is_forwarding_active, [Reply.entityNotFound], [], false⟩
      | some _ => some ⟨st.db, st.is_forwarding_active, [Reply.notifyAddError], [], false⟩
  else if command = "/notify_remove" then
    if args = "" then some ⟨st.db, st.is_forwarding_active, [Reply.usage], [], false⟩
    else
      match (match parseInt args with
             | some i => some i
             | none => (env.getEntity args).map (·.id)) with
      | none => some ⟨st.db, st.is_forwarding_active, [Reply.entityNotFound], [], false⟩
      | some i =>
        let r := remove_notification_target i st.db
        some ⟨r.2, st.is_forwarding_active,
              [if r.1 then Reply.notifyRemoved else Reply.notifyRemoveFailed], [], false⟩
  else if command = "/notify_list" then
    some ⟨st.db, st.is_forwarding_active, [Reply.notifyList (list_notification_targets st.db)], [], false⟩
  else none

/-- First token (lowercased by the caller) and argument blob of the
message text: `parts = text.strip().split(maxsplit=1) if text else []`. -/
def command_of (ev : MsgEvent) : String × String :=
  splitOnce (ev.text.getD "")

/-- The monitoring check of `handle_new_message` (lines 469-485):
`should_process` starts true and is cleared when the monitor set is
non-empty and does not contain the chat. -/
def should_process_check (db : DB) (chat_id : Int) : Bool :=
  if is_any_chat_monitored db then is_chat_monitored db chat_id else true

/-- The specification's scope formula:
`shouldProcess(chatId) = isMonitorSetEmpty() OR chatId ∈ MonitoredChat`. -/
def shouldProcessSpec (db : DB) (chat_id : Int) : Bool :=
  db.monitored.isEmpty || is_chat_monitored db chat_id

/-- The self-message guard
(`if _BOT_USER_ID is not None and sender_id == _BOT_USER_ID`). -/
def selfMessage (env : Env) (ev : MsgEvent) : Bool :=
  match env.botUserId, ev.senderId with
  | some b, some s => b == s
  | _, _ => false

/-- The non-command path of `handle_new_message` (lines 469-576): the
monitoring-scope check, then the self-message guard, then persistence
via `log_message`, then — when `is_forwarding_active` — notification
fan-out over `get_all_notification_target_ids` and conditional
`mark_message_forwarded`. -/
def regular_processing (env : Env) (st : ObsState) (ev : MsgEvent) : HandleResult :=
  if !should_process_check st.db ev.chatId then
    ⟨st.db, st.is_forwarding_active, [], [], false⟩
  else if selfMessage env ev then
    ⟨st.db, st.is_forwarding_active, [], [], false⟩
  else
    let db1 := log_message ev st.db
    if st.is_forwarding_active then
      let r := fanOutNotify env.send (get_all_notification_target_ids db1) db1
                 ev.chatId ev.messageId
      ⟨r.1, st.is_forwarding_active, [], r.2.1, r.2.2⟩
    else
      ⟨db1, st.is_forwarding_active, [], [], false⟩

/-- `handle_new_message`: owner command dispatch first; a message that is
not a recognised owner command falls through to `regular_processing`. -/
def handle_new_message (env : Env) (st : ObsState) (ev : MsgEvent) : HandleResult :=
  let viaCmd : Option HandleResult :=
    if ev.senderId == some OWNER_USER_ID then
      handleCommand env st (strLower (command_of ev).1) (command_of ev).2
    else none
  match viaCmd with
  | some r => r
  | none => regular_processing env st ev

/-- Whether the event is a recognised owner command, i.e. whether
`handle_new_message` takes a command branch. -/
def recognized_owner_command (env : Env) (st : ObsState) (ev : MsgEvent) : Bool :=
  ev.senderId == some OWNER_USER_ID
  && (handleCommand env st (strLower (command_of ev).1) (command_of ev).2).isSome

/-- The UTC day designated by a date filter, per the specification: the
current UTC day for `today`, the previous one for `yesterday`, or the
explicitly given calendar date. -/
def specDesignatedDay (nowDay : Int) (s : String) : Option Int :=
  if strLower s = "today" then some nowDay
  else if strLower s = "yesterday" then some (nowDay - 1)
  else (parseYMD s).map (fun ymd => daysFromCivil ymd.1 ymd.2.1 ymd.2.2)

/-! ## Helper lemmas -/

theorem log_message_messages (ev : MsgEvent) (db : DB) :
    (log_message ev db).messages =
      if db.messages.any (fun m => m.chat_id == ev.chatId && m.message_id == ev.messageId) then
        db.messages
      else db.messages ++ [msgRowOf ev] := rfl

theorem any_key_map_inv (l : List MessageRow) (f : MessageRow → MessageRow)
    (hf : ∀ r, (f r).chat_id = r.chat_id ∧ (f r).message_id = r.message_id)
    (c m : Int) :
    (l.map f).any (fun r => r.chat_id == c && r.message_id == m)
      = l.any (fun r => r.chat_id == c && r.message_id == m) := by
  induction l with
  | nil => rfl
  | cons x xs ih =>
    simp only [List.map_cons, List.any_cons, ih, (hf x).1, (hf x).2]

theorem msgKeyPresent_log (ev : MsgEvent) (db : DB) :
    msgKeyPresent (log_message ev db) ev.chatId ev.messageId = true := by
  unfold msgKeyPresent
  rw [log_message_messages]
  by_cases h : db.messages.any (fun m => m.chat_id == ev.chatId && m.message_id == ev.messageId) = true
  · simp [h]
  · rw [if_neg h]
    simp [msgRowOf]

theorem msgKeyPresent_mark (c m cid mid : Int) (db : DB) :
    msgKeyPresent (mark_message_forwarded c m db) cid mid = msgKeyPresent db cid mid := by
  unfold msgKeyPresent mark_message_forwarded
  apply any_key_map_inv
  intro r
  by_cases h : (r.chat_id == c && r.message_id == m && !r.forwarded_to_user) = true
  · simp [h]
  · simp [h]

theorem countMsgKey_zero_iff (db : DB) (c m : Int) :
    countMsgKey db c m = 0 ↔
      db.messages.any (fun r => r.chat_id == c && r.message_id == m) = false := by
  unfold countMsgKey
  rw [List.length_eq_zero, List.filter_eq_nil_iff]
  constructor
  · intro h
    rw [List.any_eq_false]
    intro r hr
    exact h r hr
  · intro h r hr
    rw [List.any_eq_false] at h
    exact h r hr

/-! ## C1 -/

/-- C1: the message-logging operation is idempotent on the messages
table with respect to the composite key `(chat id, message id)`:
re-ingesting the identical event leaves the messages table unchanged
(insert-or-ignore), and two ingestions of a message whose key is not yet
stored leave exactly one row with that key. -/
theorem C1_log_message_idempotent (ev : MsgEvent) (db : DB) :
    (log_message ev (log_message ev db)).messages = (log_message ev db).messages
    ∧ (countMsgKey db ev.chatId ev.messageId = 0 →
        countMsgKey (log_message ev (log_message ev db)) ev.chatId ev.messageId = 1) := by
  have hpresent := msgKeyPresent_log ev db
  unfold msgKeyPresent at hpresent
  have hsecond : (log_message ev (log_message ev db)).messages = (log_message ev db).messages := by
    rw [log_message_messages ev (log_message ev db), if_pos hpresent]
  refine ⟨hsecond, ?_⟩
  intro h0
  have hany := (countMsgKey_zero_iff db ev.chatId ev.messageId).mp h0
  unfold countMsgKey
  rw [hsecond, log_message_messages, if_neg (by simp [hany]), List.filter_append]
  have hrow : (List.filter (fun r => r.chat_id == ev.chatId && r.message_id == ev.messageId)
      [msgRowOf ev]) = [msgRowOf ev] := by
    simp [msgRowOf]
  rw [hrow]
  have hz : (List.filter (fun r => r.chat_id == ev.chatId && r.message_id == ev.messageId)
      db.messages).length = 0 := (countMsgKey_zero_iff db ev.chatId ev.messageId).mpr hany ▸ h0
  simp [List.length_append, hz]

/-- Witness for C1 at a concrete fresh event over the empty database. -/
theorem C1_log_message_idempotent_witness :
    countMsgKey ⟨[], [], [], [], []⟩ 5 7 = 0
    ∧ countMsgKey
        (log_message ⟨5, "group", some "G", none, some 9, none, some "A", none, false,
                      7, 100, some "hi", none, none, none⟩
          (log_message ⟨5, "group", some "G", none, some 9, none, some "A", none, false,
                        7, 100, some "hi", none, none, none⟩ ⟨[], [], [], [], []⟩)) 5 7 = 1 := by
  refine ⟨by decide, ?_⟩
  exact (C1_log_message_idempotent
    ⟨5, "group", some "G", none, some 9, none, some "A", none, false,
     7, 100, some "hi", none, none, none⟩ ⟨[], [], [], [], []⟩).2 (by decide)

/-! ## C2 -/

/-- C2: the owner id is a permanent member of the notification-target
set: adding the owner is rejected without modifying the table, removing
the owner is denied without modifying the table, initialisation seeds an
owner-flagged row, and both add and remove preserve owner membership. -/
theorem C2_owner_target_permanent (db : DB) (uid : Int) (un fn : Option String) :
    add_notification_target OWNER_USER_ID un fn db = (false, db)
    ∧ remove_notification_target OWNER_USER_ID db = (false, db)
    ∧ owner_member (seed_owner_target db) = true
    ∧ (owner_member db = true →
        owner_member (add_notification_target uid un fn db).2 = true
        ∧ owner_member (remove_notification_target uid db).2 = true) := by
  refine ⟨by simp [add_notification_target], by simp [remove_notification_target], ?_, ?_⟩
  · unfold seed_owner_target owner_member
    by_cases h : db.targets.any (·.target_user_id == OWNER_USER_ID) = true
    · rw [if_pos h]
      rw [List.any_eq_true] at h ⊢
      obtain ⟨r, hr, hrid⟩ := h
      refine ⟨_, List.mem_map_of_mem _ hr, ?_⟩
      simp only [hrid, if_pos]
      simp
    · rw [if_neg h]
      simp
  · intro hmem
    unfold owner_member at hmem
    rw [List.any_eq_true] at hmem
    obtain ⟨r, hr, hrprop⟩ := hmem
    rw [Bool.and_eq_true, beq_iff_eq] at hrprop
    constructor
    · unfold add_notification_target owner_member
      by_cases huid : (uid == OWNER_USER_ID) = true
      · rw [if_pos huid]
        exact List.any_eq_true.mpr ⟨r, hr, by simp [hrprop.1, hrprop.2]⟩
      · rw [if_neg huid]
        by_cases hconf : db.targets.any (·.target_user_id == uid) = true
        · rw [if_pos hconf]
          refine List.any_eq_true.mpr ⟨_, List.mem_map_of_mem _ hr, ?_⟩
          have hne : (r.target_user_id == uid) = false := by
            rw [beq_eq_false_iff_ne, hrprop.1]
            intro hcontra
            exact huid (by simp [hcontra])
          simp only [hne, if_neg]
          simp [hrprop.1, hrprop.2]
        · rw [if_neg hconf]
          exact List.any_eq_true.mpr ⟨r, List.mem_append_left _ hr, by simp [hrprop.1, hrprop.2]⟩
    · unfold remove_notification_target owner_member
      by_cases huid : (uid == OWNER_USER_ID) = true
      · rw [if_pos huid]
        exact List.any_eq_true.mpr ⟨r, hr, by simp [hrprop.1, hrprop.2]⟩
      · rw [if_neg huid]
        refine List.any_eq_true.mpr ⟨r, List.mem_filter.mpr ⟨hr, ?_⟩, by simp [hrprop.1, hrprop.2]⟩
        simp [hrprop.2]

/-- Witness for C2 at a freshly seeded database, with a non-owner
add/remove pair. -/
theorem C2_owner_target_permanent_witness :
    owner_member (seed_owner_target ⟨[], [], [], [], []⟩) = true
    ∧ owner_member
        (add_notification_target 42 none (some "N")
          (seed_owner_target ⟨[], [], [], [], []⟩)).2 = true := by
  have h := C2_owner_target_permanent (seed_owner_target ⟨[], [], [], [], []⟩) 42 none (some "N")
  refine ⟨h.2.2.1, ?_⟩
  have h2 := C2_owner_target_permanent (seed_owner_target ⟨[], [], [], [], []⟩) 42 none (some "N")
  exact (h2.2.2.2 (by decide)).1

/-! ## C3 -/

/-- C3: per-target failure isolation in the notification fan-out — every
target whose send succeeds receives the message regardless of other
targets' failures; the message is marked forwarded in the store iff at
least one send succeeded; and with an empty target list (or zero
successes) the store is left unmarked. -/
theorem C3_fanout_failure_isolation (send : Int → SendOutcome) (targets : List Int)
    (db : DB) (c m : Int) :
    (∀ t ∈ targets, send t = SendOutcome.ok → t ∈ (fanOutNotify send targets db c m).2.1)
    ∧ ((fanOutNotify send targets db c m).2.2 = true ↔ ∃ t ∈ targets, send t = SendOutcome.ok)
    ∧ ((fanOutNotify send targets db c m).1 =
        if targets.any (fun t => send t == SendOutcome.ok) then
          mark_message_forwarded c m db
        else db)
    ∧ (targets = [] →
        (fanOutNotify send targets db c m).2.2 = false
        ∧ (fanOutNotify send targets db c m).1 = db) := by
  have hiff : ((targets.filter (fun t => send t == SendOutcome.ok)).length > 0)
      ↔ (∃ t ∈ targets, send t = SendOutcome.ok) := by
    constructor
    · intro h
      obtain ⟨t, ht⟩ := List.exists_mem_of_ne_nil _ (List.length_pos.mp h)
      have hm := List.mem_filter.mp ht
      exact ⟨t, hm.1, by simpa using hm.2⟩
    · rintro ⟨t, ht, hok⟩
      exact List.length_pos.mpr
        (List.ne_nil_of_mem (List.mem_filter.mpr ⟨ht, by simp [hok]⟩))
  have hany : (targets.any (fun t => send t == SendOutcome.ok) = true)
      ↔ (∃ t ∈ targets, send t = SendOutcome.ok) := by
    rw [List.any_eq_true]
    simp
  unfold fanOutNotify
  by_cases hemp : targets.isEmpty = true
  · rw [if_pos hemp]
    rw [List.isEmpty_iff] at hemp
    subst hemp
    simp
  · rw [if_neg hemp]
    by_cases hdel : (targets.filter (fun t => send t == SendOutcome.ok)).length > 0
    · rw [if_pos hdel]
      refine ⟨?_, by simpa using hiff.mp hdel,
              by rw [if_pos (hany.mpr (hiff.mp hdel))],
              by intro h; subst h; simp at hemp⟩
      intro t ht hok
      exact List.mem_filter.mpr ⟨ht, by simp [hok]⟩
    · rw [if_neg hdel]
      have hnone : ¬ ∃ t ∈ targets, send t = SendOutcome.ok := fun h => hdel (hiff.mpr h)
      refine ⟨?_, by simpa using hnone,
              by rw [if_neg (fun hc => hnone (hany.mp hc))],
              by intro h; subst h; simp at hemp⟩
      intro t ht hok
      exact absurd ⟨t, ht, hok⟩ hnone

/-- Witness for C3: three targets, the second blocked, the others
succeed — both survivors are notified and the message is marked. -/
theorem C3_fanout_failure_isolation_witness :
    1 ∈ (fanOutNotify (fun t => if t == 2 then SendOutcome.blocked else SendOutcome.ok)
          [1, 2, 3] ⟨[], [], [], [], []⟩ 5 7).2.1
    ∧ 3 ∈ (fanOutNotify (fun t => if t == 2 then SendOutcome.blocked else SendOutcome.ok)
          [1, 2, 3] ⟨[], [], [], [], []⟩ 5 7).2.1
    ∧ (fanOutNotify (fun t => if t == 2 then SendOutcome.blocked else SendOutcome.ok)
          [1, 2, 3] ⟨[], [], [], [], []⟩ 5 7).2.2 = true := by
  have h := C3_fanout_failure_isolation
    (fun t => if t == 2 then SendOutcome.blocked else SendOutcome.ok)
    [1, 2, 3] ⟨[], [], [], [], []⟩ 5 7
  exact ⟨h.1 1 (by decide) (by decide), h.1 3 (by decide) (by decide),
         h.2.1.mpr ⟨1, by decide, by decide⟩⟩

/-! ## C9 -/

theorem any_congr_fn (l : List α) (p q : α → Bool) (h : ∀ a ∈ l, p a = q a) :
    l.any p = l.any q := by
  induction l with
  | nil => rfl
  | cons x xs ih =>
    simp only [List.any_cons, h x (List.mem_cons_self x xs)]
    rw [ih (fun a ha => h a (List.mem_cons_of_mem x ha))]

theorem hasKey_setKey_self (fields : List (String × Json)) (k : String) (v : Json) :
    hasKey (setKey fields k v) k = true := by
  unfold hasKey setKey
  by_cases h : fields.any (·.1 == k) = true
  · rw [if_pos h]
    rw [List.any_eq_true] at h ⊢
    obtain ⟨p, hp, hpk⟩ := h
    refine ⟨_, List.mem_map_of_mem _ hp, ?_⟩
    simp only [hpk, if_pos]
    simp
  · rw [if_neg h]
    simp [List.any_append]

theorem hasKey_setKey_other (fields : List (String × Json)) (k k' : String) (v : Json)
    (h : (k' == k) = false) : hasKey (setKey fields k v) k' = hasKey fields k' := by
  unfold hasKey setKey
  by_cases hc : fields.any (·.1 == k) = true
  · rw [if_pos hc, List.any_map]
    apply any_congr_fn
    intro p _
    by_cases hp : (p.1 == k) = true
    · simp only [Function.comp, hp, if_pos]
      have h1 : (k == k') = false := by
        rw [beq_eq_false_iff_ne] at h ⊢
        exact fun hk => h hk.symm
      have h2 : (p.1 == k') = false := by
        rw [beq_iff_eq] at hp
        rw [hp]
        exact h1
      simp [h1, h2]
    · simp only [Function.comp, hp]
      simp [hp]
  · rw [if_neg hc]
    have h1 : (k == k') = false := by
      rw [beq_eq_false_iff_ne] at h ⊢
      exact fun hk => h hk.symm
    simp [List.any_append, h1]

/-- C9 counterexample: the periodic scheduler hands `send_webhook` the
raw message *list* (`main.py` line 94); string-key item assignment on a
list raises `TypeError` before any HTTP request, so the periodic
delivery POSTs nothing at all — in particular no JSON object of the
claimed `{bot_name, timestamp_utc, event_type, messages}` shape. -/
theorem C9_webhook_shape_counterexample :
    scheduler_webhook_post ⟨"TelegramObserver", some "https://example.invalid/hook"⟩
      "2024-01-01T00:00:00" [Json.obj [("text", Json.str "hi")]]
      = Except.error "TypeError" := rfl

/-- C9 amended: with a configured URL, `send_webhook` POSTs a dict
payload with `bot_name` and `timestamp_utc` added — it never adds an
`event_type` key — while the periodic scheduler's call passes the raw
message list and therefore always fails with `TypeError`, POSTing
nothing. -/
theorem C9_webhook_payload_amended (cfg : WConfig) (url nowIso : String)
    (fields : List (String × Json)) (batch : List Json)
    (hurl : cfg.webhookUrl = some url) :
    (∃ fs', send_webhook cfg nowIso (Json.obj fields) = Except.ok (some (Json.obj fs'))
      ∧ hasKey fs' "bot_name" = true
      ∧ hasKey fs' "timestamp_utc" = true
      ∧ (hasKey fields "event_type" = false → hasKey fs' "event_type" = false))
    ∧ scheduler_webhook_post cfg nowIso batch = Except.error "TypeError" := by
  constructor
  · refine ⟨setKey (setKey fields "bot_name" (Json.str cfg.botName))
      "timestamp_utc" (Json.str nowIso), ?_, ?_, ?_, ?_⟩
    · unfold send_webhook
      rw [hurl]
    · rw [hasKey_setKey_other _ _ _ _ (by decide), hasKey_setKey_self]
    · exact hasKey_setKey_self _ _ _
    · intro habs
      rw [hasKey_setKey_other _ _ _ _ (by decide),
          hasKey_setKey_other _ _ _ _ (by decide)]
      exact habs
  · unfold scheduler_webhook_post send_webhook
    rw [hurl]

/-- Witness for C9 amended at a concrete configuration and batch. -/
theorem C9_webhook_payload_amended_witness :
    (∃ fs', send_webhook ⟨"TelegramObserver", some "https://example.invalid/hook"⟩
        "2024-01-01T00:00:00" (Json.obj []) = Except.ok (some (Json.obj fs'))
      ∧ hasKey fs' "bot_name" = true
      ∧ hasKey fs' "timestamp_utc" = true
      ∧ (hasKey [] "event_type" = false → hasKey fs' "event_type" = false))
    ∧ scheduler_webhook_post ⟨"TelegramObserver", some "https://example.invalid/hook"⟩
        "2024-01-01T00:00:00" [Json.obj [("text", Json.str "hi")]]
        = Except.error "TypeError" :=
  C9_webhook_payload_amended ⟨"TelegramObserver", some "https://example.invalid/hook"⟩
    "https://example.invalid/hook" "2024-01-01T00:00:00" [] [Json.obj [("text", Json.str "hi")]] rfl

/-! ## C6 -/

/-- C6: a chat filter that resolves to no known chat, or a sender filter
that resolves to no known user, short-circuits `query_messages` to the
empty list — fail-closed, no error and no unfiltered dump. -/
theorem C6_unresolvable_filters_empty (db : DB) (nowDay : Int) (df ctf : Option String)
    (cf sf : Option Ref) (limit : Nat) (f g : String) :
    (f ≠ "" → db.chats.find? (fun c => c.username == some f || c.title == some f) = none →
      query_messages db nowDay (some (Ref.byName f)) df ctf sf limit = [])
    ∧ (g ≠ "" → db.users.find? (fun u => u.username == some g) = none →
      query_messages db nowDay cf df ctf (some (Ref.byName g)) limit = []) := by
  constructor
  · intro hf hfind
    have hcc : chatClause db (some (Ref.byName f)) = none := by
      simp [chatClause, refTruthy, hf, hfind]
    unfold query_messages
    rw [hcc]
  · intro hg hfind
    have hsc : senderClause db (some (Ref.byName g)) = none := by
      simp [senderClause, refTruthy, hg, hfind]
    unfold query_messages
    cases hcc : chatClause db cf with
    | none => rfl
    | some cOpt =>
      rw [hsc]

/-- Witness for C6 on a small concrete database and the filter string
`nonexistent`. -/
theorem C6_unresolvable_filters_empty_witness :
    query_messages
      ⟨[⟨1, "group", some "Test Group", some "testgroup"⟩],
       [⟨9, some "testuser", some "T", none, false⟩],
       [⟨10, 1, some 9, 100, some "hello", none, none, none, false⟩], [], []⟩
      0 (some (Ref.byName "nonexistent")) none none none 25 = []
    ∧ query_messages
      ⟨[⟨1, "group", some "Test Group", some "testgroup"⟩],
       [⟨9, some "testuser", some "T", none, false⟩],
       [⟨10, 1, some 9, 100, some "hello", none, none, none, false⟩], [], []⟩
      0 none none none (some (Ref.byName "nonexistent")) 25 = [] := by
  have h := C6_unresolvable_filters_empty
    ⟨[⟨1, "group", some "Test Group", some "testgroup"⟩],
     [⟨9, some "testuser", some "T", none, false⟩],
     [⟨10, 1, some 9, 100, some "hello", none, none, none, false⟩], [], []⟩
    0 none none none none 25 "nonexistent" "nonexistent"
  exact ⟨h.1 (by decide) (by decide), h.2 (by decide) (by decide)⟩

/-! ## C7 -/

theorem dateInterval_spec (nowDay : Int) (s : String) :
    dateInterval nowDay s
      = (specDesignatedDay nowDay s).map (fun d => (d * 86400, d * 86400 + 86400)) := by
  unfold dateInterval specDesignatedDay
  by_cases h1 : strLower s = "today"
  · simp [h1]
  · by_cases h2 : strLower s = "yesterday"
    · simp [h1, h2]
    · rw [if_neg h1, if_neg h2, if_neg h1, if_neg h2]
      cases parseYMD s with
      | none => rfl
      | some ymd => rfl

theorem specDesignatedDay_empty (nowDay : Int) : specDesignatedDay nowDay "" = none := rfl

/-- C7: with a date filter designating a UTC day (`today`, `yesterday`,
or an explicit parseable date), every message returned by
`query_messages` has its timestamp inside the half-open UTC day interval
`[day 00:00:00Z, next-day 00:00:00Z)` of the designated day. -/
theorem C7_query_date_interval (db : DB) (nowDay : Int) (cf sf : Option Ref)
    (ctf : Option String) (lim : Nat) (ds : String) (day : Int) (m : MessageRow)
    (hday : specDesignatedDay nowDay ds = some day)
    (hm : m ∈ query_messages db nowDay cf (some ds) ctf sf lim) :
    day * 86400 ≤ m.timestamp ∧ m.timestamp < day * 86400 + 86400 := by
  unfold query_messages at hm
  cases hcc : chatClause db cf with
  | none =>
    rw [hcc] at hm
    simp at hm
  | some cOpt =>
    rw [hcc] at hm
    cases hsc : senderClause db sf with
    | none =>
      rw [hsc] at hm
      simp at hm
    | some sOpt =>
      rw [hsc] at hm
      have hmem := @mem_of_mem_take _ m lim _ hm
      rw [mem_sortDesc] at hmem
      have hpred := (List.mem_filter.mp hmem).2
      have hne : ds ≠ "" := by
        intro he
        rw [he, specDesignatedDay_empty] at hday
        exact Option.noConfusion hday
      have hdc : dateClause nowDay (some ds) = some (day * 86400, day * 86400 + 86400) := by
        simp only [dateClause, if_neg hne, dateInterval_spec, hday, Option.map]
      simp only [matchesClauses, hdc, Bool.and_eq_true, decide_eq_true_eq] at hpred
      exact ⟨hpred.1.1.2.1, hpred.1.1.2.2⟩

/-- Witness for C7: one stored message at `2024-01-01T00:00:05Z`
(epoch day 19723) is returned by `dateFilter = "2024-01-01"` and lies in
the day interval. -/
theorem C7_query_date_interval_witness :
    19723 * 86400 ≤ (1704067205 : Int) ∧ (1704067205 : Int) < 19723 * 86400 + 86400 := by
  have h := C7_query_date_interval
    ⟨[⟨1, "group", some "Test Group", none⟩], [],
     [⟨10, 1, none, 1704067205, some "hello", none, none, none, false⟩], [], []⟩
    0 none none none 25 "2024-01-01" 19723
    ⟨10, 1, none, 1704067205, some "hello", none, none, none, false⟩
    (by decide) (by decide)
  exact h

/-! ## C10 -/

/-- C10: a date filter string that is neither `today` nor `yesterday`
(case-insensitively) and does not parse as a `YYYY-MM-DD` date is
silently dropped: the query runs with no date constraint at all
(fail-open), identical to passing no date filter. -/
theorem C10_unparseable_date_fail_open (db : DB) (nowDay : Int) (cf sf : Option Ref)
    (ctf : Option String) (lim : Nat) (ds : String)
    (h1 : strLower ds ≠ "today") (h2 : strLower ds ≠ "yesterday")
    (h3 : parseYMD ds = none) :
    query_messages db nowDay cf (some ds) ctf sf lim
      = query_messages db nowDay cf none ctf sf lim := by
  have hdc : dateClause nowDay (some ds) = none := by
    by_cases he : ds = ""
    · simp [dateClause, he]
    · simp [dateClause, dateInterval, he, h1, h2, h3]
  unfold query_messages
  cases hcc : chatClause db cf with
  | none => rfl
  | some cOpt =>
    cases hsc : senderClause db sf with
    | none => rfl
    | some sOpt =>
      simp only [hdc]
      rfl

/-- Witness for C10 at the filter string `last week` over a concrete
database with one message. -/
theorem C10_unparseable_date_fail_open_witness :
    query_messages ⟨[], [], [⟨10, 1, none, 100, some "hello", none, none, none, false⟩], [], []⟩
      0 none (some "last week") none none 25
    = query_messages ⟨[], [], [⟨10, 1, none, 100, some "hello", none, none, none, false⟩], [], []⟩
      0 none none none none 25 :=
  C10_unparseable_date_fail_open
    ⟨[], [], [⟨10, 1, none, 100, some "hello", none, none, none, false⟩], [], []⟩
    0 none none none 25 "last week" (by decide) (by decide) (by decide)

/-! ## Lemmas about the command branches and the regular path -/

theorem add_monitored_chat_messages (cid : Int) (t u : Option String) (db : DB) :
    (add_monitored_chat cid t u db).messages = db.messages := by
  unfold add_monitored_chat
  split <;> rfl

theorem remove_notification_target_messages (uid : Int) (db : DB) :
    (remove_notification_target uid db).2.messages = db.messages := by
  unfold remove_notification_target
  split <;> rfl

theorem handleCommand_effects (env : Env) (st : ObsState) (cmd args : String)
    (r : HandleResult) (h : handleCommand env st cmd args = some r) :
    r.db.messages = st.db.messages ∧ r.notified = [] ∧ r.marked = false := by
  unfold handleCommand at h
  by_cases hc0 : cmd = "/stop_forwarding"
  · rw [if_pos hc0] at h
    repeat' split at h
    all_goals
      injection h with h2
      subst h2
      refine ⟨?_, rfl, rfl⟩
      first
        | rfl
        | exact add_monitored_chat_messages _ _ _ _
        | exact remove_notification_target_messages _ _
  · rw [if_neg hc0] at h
    by_cases hc1 : cmd = "/start_forwarding"
    · rw [if_pos hc1] at h
      repeat' split at h
      all_goals
        injection h with h2
        subst h2
        refine ⟨?_, rfl, rfl⟩
        first
          | rfl
          | exact add_monitored_chat_messages _ _ _ _
          | exact remove_notification_target_messages _ _
    · rw [if_neg hc1] at h
      by_cases hc2 : cmd = "/summary_today"
      · rw [if_pos hc2] at h
        repeat' split at h
        all_goals
          injection h with h2
          subst h2
          refine ⟨?_, rfl, rfl⟩
          first
            | rfl
            | exact add_monitored_chat_messages _ _ _ _
            | exact remove_notification_target_messages _ _
      · rw [if_neg hc2] at h
        by_cases hc3 : cmd = "/monitor_add"
        · rw [if_pos hc3] at h
          repeat' split at h
          all_goals
            injection h with h2
            subst h2
            refine ⟨?_, rfl, rfl⟩
            first
              | rfl
              | exact add_monitored_chat_messages _ _ _ _
              | exact remove_notification_target_messages _ _
        · rw [if_neg hc3] at h
          by_cases hc4 : cmd = "/monitor_remove"
          · rw [if_pos hc4] at h
            repeat' split at h
            all_goals
              injection h with h2
              subst h2
              refine ⟨?_, rfl, rfl⟩
              first
                | rfl
                | exact add_monitored_chat_messages _ _ _ _
                | exact remove_notification_target_messages _ _
          · rw [if_neg hc4] at h
            by_cases hc5 : cmd = "/monitor_list"
            · rw [if_pos hc5] at h
              repeat' split at h
              all_goals
                injection h with h2
                subst h2
                refine ⟨?_, rfl, rfl⟩
                first
                  | rfl
                  | exact add_monitored_chat_messages _ _ _ _
                  | exact remove_notification_target_messages _ _
            · rw [if_neg hc5] at h
              by_cases hc6 : cmd = "/monitor_clear"
              · rw [if_pos hc6] at h
                repeat' split at h
                all_goals
                  injection h with h2
                  subst h2
                  refine ⟨?_, rfl, rfl⟩
                  first
                    | rfl
                    | exact add_monitored_chat_messages _ _ _ _
                    | exact remove_notification_target_messages _ _
              · rw [if_neg hc6] at h
                by_cases hc7 : cmd = "/query"
                · rw [if_pos hc7] at h
                  repeat' split at h
                  all_goals
                    injection h with h2
                    subst h2
                    refine ⟨?_, rfl, rfl⟩
                    first
                      | rfl
                      | exact add_monitored_chat_messages _ _ _ _
                      | exact remove_notification_target_messages _ _
                · rw [if_neg hc7] at h
                  by_cases hc8 : cmd = "/help"
                  · rw [if_pos hc8] at h
                    repeat' split at h
                    all_goals
                      injection h with h2
                      subst h2
                      refine ⟨?_, rfl, rfl⟩
                      first
                        | rfl
                        | exact add_monitored_chat_messages _ _ _ _
                        | exact remove_notification_target_messages _ _
                  · rw [if_neg hc8] at h
                    by_cases hc9 : cmd = "/notify_add"
                    · rw [if_pos hc9] at h
                      repeat' split at h
                      all_goals
                        injection h with h2
                        subst h2
                        refine ⟨?_, rfl, rfl⟩
                        first
                          | rfl
                          | exact add_monitored_chat_messages _ _ _ _
                          | exact remove_notification_target_messages _ _
                    · rw [if_neg hc9] at h
                      by_cases hc10 : cmd = "/notify_remove"
                      · rw [if_pos hc10] at h
                        repeat' split at h
                        all_goals
                          injection h with h2
                          subst h2
                          refine ⟨?_, rfl, rfl⟩
                          first
                            | rfl
                            | exact add_monitored_chat_messages _ _ _ _
                            | exact remove_notification_target_messages _ _
                      · rw [if_neg hc10] at h
                        by_cases hc11 : cmd = "/notify_list"
                        · rw [if_pos hc11] at h
                          repeat' split at h
                          all_goals
                            injection h with h2
                            subst h2
                            refine ⟨?_, rfl, rfl⟩
                            first
                              | rfl
                              | exact add_monitored_chat_messages _ _ _ _
                              | exact remove_notification_target_messages _ _
                        · rw [if_neg hc11] at h
                          exact Option.noConfusion h

theorem handle_new_message_command (env : Env) (st : ObsState) (ev : MsgEvent)
    (r : HandleResult) (hs : ev.senderId = some OWNER_USER_ID)
    (hc : handleCommand env st (strLower (command_of ev).1) (command_of ev).2 = some r) :
    handle_new_message env st ev = r := by
  unfold handle_new_message
  simp [hs, hc]

theorem handle_new_message_not_command (env : Env) (st : ObsState) (ev : MsgEvent)
    (h : recognized_owner_command env st ev = false) :
    handle_new_message env st ev = regular_processing env st ev := by
  unfold recognized_owner_command at h
  unfold handle_new_message
  by_cases hs : (ev.senderId == some OWNER_USER_ID) = true
  · rw [hs] at h
    simp only [Bool.true_and] at h
    cases hc : handleCommand env st (strLower (command_of ev).1) (command_of ev).2 with
    | some r => rw [hc] at h; simp at h
    | none => simp [hs, hc]
  · have hs' : (ev.senderId == some OWNER_USER_ID) = false := by
      revert hs
      cases ev.senderId == some OWNER_USER_ID <;> simp
    simp [hs']

theorem fanOutNotify_db_cases (send : Int → SendOutcome) (targets : List Int) (db : DB)
    (c m : Int) :
    (fanOutNotify send targets db c m).1 = mark_message_forwarded c m db
    ∨ (fanOutNotify send targets db c m).1 = db := by
  unfold fanOutNotify
  by_cases hemp : targets.isEmpty = true
  · rw [if_pos hemp]
    right
    rfl
  · rw [if_neg hemp]
    by_cases hlen : (List.filter (fun t => send t == SendOutcome.ok) targets).length > 0
    · rw [if_pos hlen]
      left
      rfl
    · rw [if_neg hlen]
      right
      rfl

theorem regular_processing_out_of_scope (env : Env) (st : ObsState) (ev : MsgEvent)
    (h : should_process_check st.db ev.chatId = false) :
    regular_processing env st ev = ⟨st.db, st.is_forwarding_active, [], [], false⟩ := by
  unfold regular_processing
  simp [h]

theorem regular_processing_persists (env : Env) (st : ObsState) (ev : MsgEvent)
    (h1 : should_process_check st.db ev.chatId = true)
    (h2 : selfMessage env ev = false) :
    msgKeyPresent (regular_processing env st ev).db ev.chatId ev.messageId = true
    ∧ (st.is_forwarding_active = false →
        regular_processing env st ev = ⟨log_message ev st.db, false, [], [], false⟩) := by
  unfold regular_processing
  simp only [h1, h2, Bool.not_true, Bool.false_eq_true, if_false]
  constructor
  · by_cases hfa : st.is_forwarding_active = true
    · simp only [hfa, if_true]
      rcases fanOutNotify_db_cases env.send
          (get_all_notification_target_ids (log_message ev st.db))
          (log_message ev st.db) ev.chatId ev.messageId with hdb | hdb
      · show msgKeyPresent (fanOutNotify _ _ _ _ _).1 _ _ = true
        rw [hdb, msgKeyPresent_mark]
        exact msgKeyPresent_log ev st.db
      · show msgKeyPresent (fanOutNotify _ _ _ _ _).1 _ _ = true
        rw [hdb]
        exact msgKeyPresent_log ev st.db
    · have hfa' : st.is_forwarding_active = false := by
        revert hfa
        cases st.is_forwarding_active <;> simp
      simp only [hfa', Bool.false_eq_true, if_false]
      exact msgKeyPresent_log ev st.db
  · intro hfa
    simp [hfa]

/-! ## C4 -/

/-- C4 counterexample: with an empty monitored set (every chat in scope)
an owner `/help` message is in scope по the claimed formula, yet it is
consumed by the command dispatcher and never persisted — so "processed
iff the monitored set is empty or contains the chat" fails as stated. -/
theorem C4_scope_iff_counterexample :
    shouldProcessSpec (DB.mk [] [] [] [] []) 7 = true
    ∧ (handle_new_message ⟨none, fun _ => none, fun _ => SendOutcome.ok, false⟩
        ⟨⟨[], [], [], [], []⟩, true⟩
        ⟨7, "user", none, none, some OWNER_USER_ID, none, none, none, false, 1, 0,
         some "/help", none, none, none⟩).db.messages = []
    ∧ (handle_new_message ⟨none, fun _ => none, fun _ => SendOutcome.ok, false⟩
        ⟨⟨[], [], [], [], []⟩, true⟩
        ⟨7, "user", none, none, some OWNER_USER_ID, none, none, none, false, 1, 0,
         some "/help", none, none, none⟩).notified = [] := by
  refine ⟨by decide, ?_, ?_⟩ <;> decide

/-- C4 amended: the code's scope check equals the specification formula
`isMonitorSetEmpty OR member`; a message from a chat failing the check is
never persisted and never notified; and an in-scope message IS persisted
provided it is not a recognised owner command and not a self-sent
message (recognised owner commands and the bot's own messages
short-circuit before persistence even when in scope). -/
theorem C4_scope_amended (env : Env) (st : ObsState) (ev : MsgEvent) :
    should_process_check st.db ev.chatId = shouldProcessSpec st.db ev.chatId
    ∧ (should_process_check st.db ev.chatId = false →
        (handle_new_message env st ev).db.messages = st.db.messages
        ∧ (handle_new_message env st ev).notified = [])
    ∧ (should_process_check st.db ev.chatId = true →
        recognized_owner_command env st ev = false →
        selfMessage env ev = false →
        msgKeyPresent (handle_new_message env st ev).db ev.chatId ev.messageId = true) := by
  refine ⟨?_, ?_, ?_⟩
  · unfold should_process_check shouldProcessSpec is_any_chat_monitored
    by_cases hm : st.db.monitored.isEmpty = true
    · simp [hm]
    · simp [hm]
  · intro hout
    by_cases hrec : recognized_owner_command env st ev = true
    · have hparts : (ev.senderId == some OWNER_USER_ID) = true
          ∧ (handleCommand env st (strLower (command_of ev).1) (command_of ev).2).isSome = true := by
        unfold recognized_owner_command at hrec
        exact Bool.and_eq_true_iff.mp hrec
      obtain ⟨r, hc⟩ := Option.isSome_iff_exists.mp hparts.2
      rw [handle_new_message_command env st ev r (beq_iff_eq.mp hparts.1) hc]
      have heff := handleCommand_effects env st _ _ r hc
      exact ⟨heff.1, heff.2.1⟩
    · have hrec' : recognized_owner_command env st ev = false := by
        revert hrec
        cases recognized_owner_command env st ev <;> simp
      rw [handle_new_message_not_command env st ev hrec',
          regular_processing_out_of_scope env st ev hout]
      exact ⟨rfl, rfl⟩
  · intro hin hrec hself
    rw [handle_new_message_not_command env st ev hrec]
    exact (regular_processing_persists env st ev hin hself).1

/-- Witness for C4 amended: an out-of-scope message leaves the store
untouched and notifies nobody; an in-scope non-command message lands in
the messages table. -/
theorem C4_scope_amended_witness :
    ((handle_new_message ⟨none, fun _ => none, fun _ => SendOutcome.ok, false⟩
        ⟨⟨[], [], [], [⟨55, none, none⟩], []⟩, true⟩
        ⟨99, "group", none, none, some 1, none, none, none, false, 2, 50,
         some "hello", none, none, none⟩).db.messages
      = (DB.mk [] [] [] [⟨55, none, none⟩] []).messages
    ∧ (handle_new_message ⟨none, fun _ => none, fun _ => SendOutcome.ok, false⟩
        ⟨⟨[], [], [], [⟨55, none, none⟩], []⟩, true⟩
        ⟨99, "group", none, none, some 1, none, none, none, false, 2, 50,
         some "hello", none, none, none⟩).notified = [])
    ∧ msgKeyPresent (handle_new_message ⟨none, fun _ => none, fun _ => SendOutcome.ok, false⟩
        ⟨⟨[], [], [], [], []⟩, true⟩
        ⟨7, "group", none, none, some 1, none, none, none, false, 3, 60,
         some "hi", none, none, none⟩).db 7 3 = true := by
  refine ⟨(C4_scope_amended ⟨none, fun _ => none, fun _ => SendOutcome.ok, false⟩
      ⟨⟨[], [], [], [⟨55, none, none⟩], []⟩, true⟩
      ⟨99, "group", none, none, some 1, none, none, none, false, 2, 50,
       some "hello", none, none, none⟩).2.1 (by decide), ?_⟩
  exact (C4_scope_amended ⟨none, fun _ => none, fun _ => SendOutcome.ok, false⟩
      ⟨⟨[], [], [], [], []⟩, true⟩
      ⟨7, "group", none, none, some 1, none, none, none, false, 3, 60,
       some "hi", none, none, none⟩).2.2 (by decide) (by decide) (by decide)

/-! ## C5 -/

/-- C5 counterexample: a `/stop_forwarding` message from the owner in a
chat OUTSIDE the non-empty monitored set is still interpreted and
executed as a command (the flag flips and a confirmation reply is sent),
refuting the claim that scope evaluation precedes command
interpretation and drops such messages first. -/
theorem C5_order_counterexample :
    should_process_check (DB.mk [] [] [] [⟨55, none, none⟩]
        [⟨OWNER_USER_ID, none, some "Owner", true⟩]) 99 = false
    ∧ (handle_new_message ⟨none, fun _ => none, fun _ => SendOutcome.ok, false⟩
        ⟨⟨[], [], [], [⟨55, none, none⟩], [⟨OWNER_USER_ID, none, some "Owner", true⟩]⟩, true⟩
        ⟨99, "user", none, none, some OWNER_USER_ID, none, none, none, false, 1, 0,
         some "/stop_forwarding", none, none, none⟩).is_forwarding_active = false
    ∧ (handle_new_message ⟨none, fun _ => none, fun _ => SendOutcome.ok, false⟩
        ⟨⟨[], [], [], [⟨55, none, none⟩], [⟨OWNER_USER_ID, none, some "Owner", true⟩]⟩, true⟩
        ⟨99, "user", none, none, some OWNER_USER_ID, none, none, none, false, 1, 0,
         some "/stop_forwarding", none, none, none⟩).replies = [Reply.stopped] := by
  refine ⟨by decide, ?_, ?_⟩ <;> decide

/-- C5 amended: command interpretation precedes scope evaluation — a
recognised owner command is executed regardless of the monitored set
(in particular `/stop_forwarding` from an out-of-scope chat still clears
the forwarding flag and replies), but commands never persist or notify;
a NON-command message from a chat outside a non-empty monitored set is
dropped before persistence and notification. -/
theorem C5_order_amended (env : Env) (st : ObsState) (ev : MsgEvent) :
    (recognized_owner_command env st ev = true →
      (handle_new_message env st ev).db.messages = st.db.messages
      ∧ (handle_new_message env st ev).notified = [])
    ∧ (ev.senderId = some OWNER_USER_ID → ev.text = some "/stop_forwarding" →
      (handle_new_message env st ev).is_forwarding_active = false
      ∧ (handle_new_message env st ev).replies ≠ []
      ∧ (handle_new_message env st ev).db.messages = st.db.messages)
    ∧ (recognized_owner_command env st ev = false →
      should_process_check st.db ev.chatId = false →
      (handle_new_message env st ev).db = st.db
      ∧ (handle_new_message env st ev).notified = []
      ∧ (handle_new_message env st ev).replies = []) := by
  refine ⟨?_, ?_, ?_⟩
  · intro hrec
    have hparts : (ev.senderId == some OWNER_USER_ID) = true
        ∧ (handleCommand env st (strLower (command_of ev).1) (command_of ev).2).isSome = true := by
      unfold recognized_owner_command at hrec
      exact Bool.and_eq_true_iff.mp hrec
    obtain ⟨r, hc⟩ := Option.isSome_iff_exists.mp hparts.2
    rw [handle_new_message_command env st ev r (beq_iff_eq.mp hparts.1) hc]
    have heff := handleCommand_effects env st _ _ r hc
    exact ⟨heff.1, heff.2.1⟩
  · intro hs htext
    have hcmd : command_of ev = ("/stop_forwarding", "") := by
      unfold command_of
      rw [htext]
      decide
    have hlow : strLower (command_of ev).1 = "/stop_forwarding" := by
      rw [hcmd]
      decide
    by_cases hfa : st.is_forwarding_active = true
    · have hc : handleCommand env st (strLower (command_of ev).1) (command_of ev).2
          = some ⟨st.db, false, [Reply.stopped], [], false⟩ := by
        rw [hlow, hcmd]
        unfold handleCommand
        rw [if_pos rfl, if_pos hfa]
      rw [handle_new_message_command env st ev _ hs hc]
      exact ⟨rfl, by simp, rfl⟩
    · have hfa' : st.is_forwarding_active = false := by
        revert hfa
        cases st.is_forwarding_active <;> simp
      have hc : handleCommand env st (strLower (command_of ev).1) (command_of ev).2
          = some ⟨st.db, st.is_forwarding_active, [Reply.alreadyStopped], [], false⟩ := by
        rw [hlow, hcmd]
        unfold handleCommand
        rw [if_pos rfl, if_neg (by simp [hfa'])]
      rw [handle_new_message_command env st ev _ hs hc]
      exact ⟨hfa', by simp, rfl⟩
  · intro hrec hout
    rw [handle_new_message_not_command env st ev hrec,
        regular_processing_out_of_scope env st ev hout]
    exact ⟨rfl, rfl, rfl⟩

/-- Witness for C5 amended: the owner's `/stop_forwarding` from an
out-of-scope chat clears the flag; a non-command out-of-scope message
changes nothing. -/
theorem C5_order_amended_witness :
    ((handle_new_message ⟨none, fun _ => none, fun _ => SendOutcome.ok, false⟩
        ⟨⟨[], [], [], [⟨55, none, none⟩], []⟩, true⟩
        ⟨99, "user", none, none, some OWNER_USER_ID, none, none, none, false, 1, 0,
         some "/stop_forwarding", none, none, none⟩).is_forwarding_active = false
      ∧ (handle_new_message ⟨none, fun _ => none, fun _ => SendOutcome.ok, false⟩
        ⟨⟨[], [], [], [⟨55, none, none⟩], []⟩, true⟩
        ⟨99, "user", none, none, some OWNER_USER_ID, none, none, none, false, 1, 0,
         some "/stop_forwarding", none, none, none⟩).replies ≠ []
      ∧ (handle_new_message ⟨none, fun _ => none, fun _ => SendOutcome.ok, false⟩
        ⟨⟨[], [], [], [⟨55, none, none⟩], []⟩, true⟩
        ⟨99, "user", none, none, some OWNER_USER_ID, none, none, none, false, 1, 0,
         some "/stop_forwarding", none, none, none⟩).db.messages
        = (DB.mk [] [] [] [⟨55, none, none⟩] []).messages)
    ∧ (handle_new_message ⟨none, fun _ => none, fun _ => SendOutcome.ok, false⟩
        ⟨⟨[], [], [], [⟨55, none, none⟩], []⟩, true⟩
        ⟨99, "group", none, none, some 1, none, none, none, false, 2, 50,
         some "hello", none, none, none⟩).db
      = DB.mk [] [] [] [⟨55, none, none⟩] [] := by
  refine ⟨(C5_order_amended ⟨none, fun _ => none, fun _ => SendOutcome.ok, false⟩
      ⟨⟨[], [], [], [⟨55, none, none⟩], []⟩, true⟩
      ⟨99, "user", none, none, some OWNER_USER_ID, none, none, none, false, 1, 0,
       some "/stop_forwarding", none, none, none⟩).2.1 rfl rfl, ?_⟩
  exact ((C5_order_amended ⟨none, fun _ => none, fun _ => SendOutcome.ok, false⟩
      ⟨⟨[], [], [], [⟨55, none, none⟩], []⟩, true⟩
      ⟨99, "group", none, none, some 1, none, none, none, false, 2, 50,
       some "hello", none, none, none⟩).2.2 (by decide) (by decide)).1

/-! ## C8 -/

theorem foldl_dictSet_nodup (key : α → String) (val : α → Nat) :
    ∀ (l : List α) (acc : List (String × Nat)),
      (∀ x ∈ l, ∀ q ∈ acc, q.1 ≠ key x) →
      l.Pairwise (fun a b => key a ≠ key b) →
      l.foldl (fun acc2 x => dictSet acc2 (key x) (val x)) acc
        = acc ++ l.map (fun x => (key x, val x)) := by
  intro l
  induction l with
  | nil =>
    intro acc _ _
    simp
  | cons x xs ih =>
    intro acc hacc hpw
    rw [List.foldl_cons]
    have hstep : dictSet acc (key x) (val x) = acc ++ [(key x, val x)] := by
      unfold dictSet
      rw [if_neg ?hne]
      case hne =>
        intro hc
        rw [List.any_eq_true] at hc
        obtain ⟨q, hq, hqk⟩ := hc
        exact (hacc x (List.mem_cons_self x xs) q hq) (by simpa using hqk)
    rw [hstep, ih (acc ++ [(key x, val x)]) ?_ (List.pairwise_cons.mp hpw).2]
    · simp
    · intro y hy q hq
      rcases List.mem_append.mp hq with hq1 | hq2
      · exact hacc y (List.mem_cons_of_mem x hy) q hq1
      · have hqx : q = (key x, val x) := by simpa using hq2
        subst hqx
        exact (List.pairwise_cons.mp hpw).1 y hy

theorem get_unforwarded_summary_of_inj (db : DB)
    (hinj : (unforwardedGroups db).Pairwise (fun a b => chatDisplay a.1 ≠ chatDisplay b.1)) :
    get_unforwarded_summary db
      = (unforwardedGroups db).map (fun g => (chatDisplay g.1, g.2)) := by
  unfold get_unforwarded_summary
  exact foldl_dictSet_nodup (fun g => chatDisplay g.1) (fun g => g.2)
    (unforwardedGroups db) [] (by simp) hinj

theorem unforwardedGroups_count (db : DB) (g : ChatRow × Nat)
    (hg : g ∈ unforwardedGroups db) : g.2 = unforwardedCount db g.1.chat_id := by
  unfold unforwardedGroups at hg
  rw [mem_sortDesc, List.mem_filterMap] at hg
  obtain ⟨cid, hcid, hmap⟩ := hg
  rcases hfind : db.chats.find? (·.chat_id == cid) with _ | c
  · rw [hfind] at hmap
    simp at hmap
  · rw [hfind] at hmap
    have hcc := List.find?_some hfind
    have hcc' : c.chat_id = cid := beq_iff_eq.mp hcc
    simp only [Option.map_some'] at hmap
    injection hmap with h2
    subst h2
    simp only
    rw [hcc']

/-- C8 counterexample: two distinct chats share the display title `X`
(chat 1 with two unforwarded messages, chat 2 with one); the summary
dict is keyed by display string, so the second group overwrites the
first and the `/start_forwarding` reply reports `X: 1` while chat 1
actually has 2 unforwarded messages — the per-chat count is not
accurate as claimed. -/
theorem C8_summary_collision_counterexample :
    get_unforwarded_summary
      (DB.mk [⟨1, "group", some "X", none⟩, ⟨2, "group", some "X", none⟩] []
        [⟨10, 1, none, 5, none, none, none, none, false⟩,
         ⟨11, 1, none, 6, none, none, none, none, false⟩,
         ⟨20, 2, none, 7, none, none, none, none, false⟩] [] [])
      = [("X", 1)]
    ∧ unforwardedCount
      (DB.mk [⟨1, "group", some "X", none⟩, ⟨2, "group", some "X", none⟩] []
        [⟨10, 1, none, 5, none, none, none, none, false⟩,
         ⟨11, 1, none, 6, none, none, none, none, false⟩,
         ⟨20, 2, none, 7, none, none, none, none, false⟩] [] []) 1 = 2 := by
  refine ⟨?_, ?_⟩ <;> decide

/-- C8 amended: after an owner `/stop_forwarding` the flag is cleared
and nothing is notified; while the flag is off, a subsequent in-scope
non-command fresh message is persisted with forwarded-state false and
neither notified nor marked; the `/start_forwarding` reply carries the
unforwarded summary and re-enables the flag; and that summary reports
each chat's accurate unforwarded count provided the display names of
the chats with unforwarded messages are pairwise distinct (with
colliding display names one chat's count overwrites another's). -/
theorem C8_forwarding_pause_amended (env : Env) (st : ObsState) (ev : MsgEvent) (db : DB) :
    (ev.senderId = some OWNER_USER_ID → ev.text = some "/stop_forwarding" →
      (handle_new_message env st ev).is_forwarding_active = false
      ∧ (handle_new_message env st ev).notified = [])
    ∧ (st.is_forwarding_active = false →
        recognized_owner_command env st ev = false →
        should_process_check st.db ev.chatId = true →
        selfMessage env ev = false →
        countMsgKey st.db ev.chatId ev.messageId = 0 →
        (handle_new_message env st ev).notified = []
        ∧ (handle_new_message env st ev).marked = false
        ∧ (handle_new_message env st ev).db.messages = st.db.messages ++ [msgRowOf ev])
    ∧ (st.is_forwarding_active = false → ev.senderId = some OWNER_USER_ID →
        ev.text = some "/start_forwarding" →
        (handle_new_message env st ev).is_forwarding_active = true
        ∧ (handle_new_message env st ev).replies
            = [Reply.started (get_unforwarded_summary st.db)])
    ∧ ((unforwardedGroups db).Pairwise (fun a b => chatDisplay a.1 ≠ chatDisplay b.1) →
        ∀ g ∈ unforwardedGroups db,
          (chatDisplay g.1, unforwardedCount db g.1.chat_id) ∈ get_unforwarded_summary db) := by
  refine ⟨?_, ?_, ?_, ?_⟩
  · intro hs htext
    have hcmd : command_of ev = ("/stop_forwarding", "") := by
      unfold command_of
      rw [htext]
      decide
    have hlow : strLower (command_of ev).1 = "/stop_forwarding" := by
      rw [hcmd]
      decide
    by_cases hfa : st.is_forwarding_active = true
    · have hc : handleCommand env st (strLower (command_of ev).1) (command_of ev).2
          = some ⟨st.db, false, [Reply.stopped], [], false⟩ := by
        rw [hlow, hcmd]
        unfold handleCommand
        rw [if_pos rfl, if_pos hfa]
      rw [handle_new_message_command env st ev _ hs hc]
      exact ⟨rfl, rfl⟩
    · have hfa' : st.is_forwarding_active = false := by
        revert hfa
        cases st.is_forwarding_active <;> simp
      have hc : handleCommand env st (strLower (command_of ev).1) (command_of ev).2
          = some ⟨st.db, st.is_forwarding_active, [Reply.alreadyStopped], [], false⟩ := by
        rw [hlow, hcmd]
        unfold handleCommand
        rw [if_pos rfl, if_neg (by simp [hfa'])]
      rw [handle_new_message_command env st ev _ hs hc]
      exact ⟨hfa', rfl⟩
  · intro hfa hrec hin hself h0
    rw [handle_new_message_not_command env st ev hrec,
        (regular_processing_persists env st ev hin hself).2 hfa]
    refine ⟨rfl, rfl, ?_⟩
    show (log_message ev st.db).messages = st.db.messages ++ [msgRowOf ev]
    rw [log_message_messages,
        if_neg (by simp [(countMsgKey_zero_iff st.db ev.chatId ev.messageId).mp h0])]
  · intro hfa hs htext
    have hcmd : command_of ev = ("/start_forwarding", "") := by
      unfold command_of
      rw [htext]
      decide
    have hlow : strLower (command_of ev).1 = "/start_forwarding" := by
      rw [hcmd]
      decide
    have hc : handleCommand env st (strLower (command_of ev).1) (command_of ev).2
        = some ⟨st.db, true, [Reply.started (get_unforwarded_summary st.db)], [], false⟩ := by
      rw [hlow, hcmd]
      unfold handleCommand
      rw [if_neg (by decide), if_pos rfl, if_pos (by simp [hfa])]
    rw [handle_new_message_command env st ev _ hs hc]
    exact ⟨rfl, rfl⟩
  · intro hinj g hg
    rw [get_unforwarded_summary_of_inj db hinj, ← unforwardedGroups_count db g hg]
    exact List.mem_map_of_mem _ hg

/-- Witness for C8 amended: stop clears the flag; a message while
stopped is stored unforwarded and unmarked; start re-enables and
replies with the summary; a collision-free summary reports the exact
count. -/
theorem C8_forwarding_pause_amended_witness :
    ((handle_new_message ⟨none, fun _ => none, fun _ => SendOutcome.ok, false⟩
        ⟨⟨[], [], [], [], []⟩, true⟩
        ⟨7, "user", none, none, some OWNER_USER_ID, none, none, none, false, 1, 0,
         some "/stop_forwarding", none, none, none⟩).is_forwarding_active = false)
    ∧ ((handle_new_message ⟨none, fun _ => none, fun _ => SendOutcome.ok, false⟩
        ⟨⟨[], [], [], [], []⟩, false⟩
        ⟨7, "group", none, none, some 1, none, none, none, false, 3, 60,
         some "hi", none, none, none⟩).marked = false
      ∧ (handle_new_message ⟨none, fun _ => none, fun _ => SendOutcome.ok, false⟩
        ⟨⟨[], [], [], [], []⟩, false⟩
        ⟨7, "group", none, none, some 1, none, none, none, false, 3, 60,
         some "hi", none, none, none⟩).db.messages
        = [⟨3, 7, some 1, 60, some "hi", none, none, none, false⟩])
    ∧ ((handle_new_message ⟨none, fun _ => none, fun _ => SendOutcome.ok, false⟩
        ⟨⟨[], [], [], [], []⟩, false⟩
        ⟨7, "user", none, none, some OWNER_USER_ID, none, none, none, false, 2, 10,
         some "/start_forwarding", none, none, none⟩).replies
      = [Reply.started (get_unforwarded_summary ⟨[], [], [], [], []⟩)])
    ∧ (chatDisplay ⟨1, "group", some "A", none⟩, unforwardedCount
        (DB.mk [⟨1, "group", some "A", none⟩] []
          [⟨10, 1, none, 5, none, none, none, none, false⟩] [] []) 1)
      ∈ get_unforwarded_summary
        (DB.mk [⟨1, "group", some "A", none⟩] []
          [⟨10, 1, none, 5, none, none, none, none, false⟩] [] []) := by
  refine ⟨?_, ?_, ?_, ?_⟩
  · exact ((C8_forwarding_pause_amended ⟨none, fun _ => none, fun _ => SendOutcome.ok, false⟩
      ⟨⟨[], [], [], [], []⟩, true⟩
      ⟨7, "user", none, none, some OWNER_USER_ID, none, none, none, false, 1, 0,
       some "/stop_forwarding", none, none, none⟩ ⟨[], [], [], [], []⟩).1 rfl rfl).1
  · have h := (C8_forwarding_pause_amended ⟨none, fun _ => none, fun _ => SendOutcome.ok, false⟩
      ⟨⟨[], [], [], [], []⟩, false⟩
      ⟨7, "group", none, none, some 1, none, none, none, false, 3, 60,
       some "hi", none, none, none⟩ ⟨[], [], [], [], []⟩).2.1
      rfl (by decide) (by decide) (by decide) (by decide)
    exact ⟨h.2.1, h.2.2⟩
  · exact ((C8_forwarding_pause_amended ⟨none, fun _ => none, fun _ => SendOutcome.ok, false⟩
      ⟨⟨[], [], [], [], []⟩, false⟩
      ⟨7, "user", none, none, some OWNER_USER_ID, none, none, none, false, 2, 10,
       some "/start_forwarding", none, none, none⟩ ⟨[], [], [], [], []⟩).2.2.1
      rfl rfl rfl).2
  · exact (C8_forwarding_pause_amended ⟨none, fun _ => none, fun _ => SendOutcome.ok, false⟩
      ⟨⟨[], [], [], [], []⟩, false⟩
      ⟨7, "user", none, none, some 1, none, none, none, false, 2, 10,
       none, none, none, none⟩
      (DB.mk [⟨1, "group", some "A", none⟩] []
        [⟨10, 1, none, 5, none, none, none, none, false⟩] [] [])).2.2.2
      (by decide) (⟨1, "group", some "A", none⟩, 1) (by decide)
